import Mathlib

/-!
Verification development for `custom_components/idm/sensor.py` (IDM heating
integration).  The Python module is shallowly embedded: strings are `List Char`,
JSON values are the inductive `JValue`, Python exceptions are the inductive
`PyExc`, and the stateful objects (`IdmData`, `IdmHeatingSensor`) become
explicit state-passing functions.  Network I/O and the third-party pieces
(`requests`, the `homeassistant.util.Throttle` decorator) are modelled as
explicitly documented environment parameters.
-/

/-! ## Python string primitives -/

/-- ASCII decimal digit test (the digits accepted by Python `int()`/`float()`
for the telemetry strings this module handles). -/
def isDigitChar (c : Char) : Bool := '0' ≤ c && c ≤ '9'

/-- Value of a list of decimal digits, most significant first. -/
def digitsToNat (s : List Char) : Nat :=
  s.foldl (fun a c => a * 10 + (c.toNat - 48)) 0

/-- Split a character list at the first `'.'`: returns the part before it and,
when a dot exists, the part after it. -/
def splitDot : List Char → List Char × Option (List Char)
  | [] => ([], none)
  | c :: rest =>
    if c = '.' then ([], some rest)
    else
      let p := splitDot rest
      (c :: p.1, p.2)

/-- Parse a nonempty all-digit string as a natural number (else `none`). -/
def parseNatDigits (s : List Char) : Option Nat :=
  if !s.isEmpty && s.all isDigitChar then some (digitsToNat s) else none

/-- Model of Python `int(string)` on the forms the module receives: an optional
sign followed by decimal digits.  (Python additionally strips whitespace and
allows `_` separators; those forms never occur in the telemetry strings.) -/
def parseInt (s : List Char) : Option ℤ :=
  match s with
  | [] => none
  | c :: rest =>
    if c = '-' then (parseNatDigits rest).map (fun n => -(n : ℤ))
    else if c = '+' then (parseNatDigits rest).map (fun n => (n : ℤ))
    else (parseNatDigits (c :: rest)).map (fun n => (n : ℤ))

/-- Parse an unsigned decimal literal `digits` or `digits.digits` as an exact
rational. -/
def parseUnsignedFloat (s : List Char) : Option ℚ :=
  match splitDot s with
  | (ip, none) =>
    if !ip.isEmpty && ip.all isDigitChar then some ((digitsToNat ip : ℚ)) else none
  | (ip, some fp) =>
    if !ip.isEmpty && !fp.isEmpty && ip.all isDigitChar && fp.all isDigitChar then
      some ((digitsToNat ip : ℚ) + (digitsToNat fp : ℚ) / (10 ^ fp.length))
    else none

/-- Model of Python `float(string)` on finite decimal literals with an optional
sign — the format of the API's telemetry values.  The modelled values (exact
rationals) coincide with the observed Python floats on the decimal fractions
the claims exercise.  (Python also accepts exponents, `inf`/`nan`, leading
whitespace and bare `digits.`/`.digits`; none of those occur here, and a string
rejected by this parser and accepted by Python never arises in the claims.) -/
def parseFloat (s : List Char) : Option ℚ :=
  match s with
  | [] => none
  | c :: rest =>
    if c = '-' then (parseUnsignedFloat rest).map (fun q => -q)
    else if c = '+' then parseUnsignedFloat rest
    else parseUnsignedFloat (c :: rest)

/-- Model of Python `str.rstrip(chars)`: remove trailing characters that are
members of the character set `cs` (note: a character *set*, not a literal
suffix — exactly Python's semantics). -/
def rstripSet (s : List Char) (cs : List Char) : List Char :=
  ((s.reverse).dropWhile (fun c => decide (c ∈ cs))).reverse

/-- Fuel-indexed worker for `pyReplace`; the fuel is the length of the scanned
list, which bounds the number of scanning steps. -/
def pyReplaceAux (old new : List Char) : Nat → List Char → List Char
  | 0, s => s
  | _ + 1, [] => []
  | fuel + 1, c :: rest =>
    if !old.isEmpty && old.isPrefixOf (c :: rest) then
      new ++ pyReplaceAux old new fuel ((c :: rest).drop old.length)
    else
      c :: pyReplaceAux old new fuel rest

/-- Model of Python `str.replace(old, new)`: replace the leftmost,
non-overlapping occurrences of `old` by `new`, continuing the scan after each
inserted replacement.  For empty `old` this model is the identity; the module
only ever replaces the nonempty `icon_*` tokens, where the two agree. -/
def pyReplace (s old new : List Char) : List Char :=
  pyReplaceAux old new s.length s

/-- `for key, value in d.items(): s = s.replace(key, value)` — fold the
replacement dictionary (in insertion order) over the string. -/
def applyReplacements (d : List (List Char × List Char)) (s : List Char) : List Char :=
  d.foldl (fun acc kv => pyReplace acc kv.1 kv.2) s

/-- `needle` occurs as a contiguous substring of `hay`. -/
def hasSubstr (hay needle : List Char) : Bool :=
  match hay with
  | [] => needle.isEmpty
  | _ :: rest => needle.isPrefixOf hay || hasSubstr rest needle

/-! ## Python/JSON value model -/

/-- Decoded JSON values as delivered by `requests.Response.json()`. -/
inductive JValue where
  | str (s : List Char)
  | num (q : ℚ)
  | arr (xs : List JValue)
  | obj (fields : List (List Char × JValue))
  | null

/-- The Python exceptions the module can encounter.  `requestException`
stands for `requests.exceptions.RequestException` and all of its subclasses
(`Timeout`, `ConnectionError`, …). -/
inductive PyExc where
  | typeError
  | keyError
  | indexError
  | valueError
  | attributeError
  | requestException
deriving DecidableEq

/-- The typed values a sensor's `_state` can hold after an assignment:
Python `str`, `int` and `float` results of the coercions in
`IdmHeatingSensor.update`. -/
inductive PyVal where
  | s (x : List Char)
  | i (n : ℤ)
  | f (q : ℚ)
deriving DecidableEq

/-- First binding of key `k` in a decoded JSON object (Python dicts hold each
key once, so the first binding is the binding). -/
def lookupPairs (fs : List (List Char × JValue)) (k : List Char) : Option JValue :=
  match fs with
  | [] => none
  | p :: rest => if p.1 = k then some p.2 else lookupPairs rest k

/-- Rebind key `k` in an object's field list (append if absent — the module
only ever stores to keys it has just read successfully). -/
def setPairs (fs : List (List Char × JValue)) (k : List Char) (v : JValue) :
    List (List Char × JValue) :=
  match fs with
  | [] => [(k, v)]
  | p :: rest => if p.1 = k then (p.1, v) :: rest else p :: setPairs rest k v

/-- Python subscript `j[k]` with a string key: dict lookup (`KeyError` when
missing) or `TypeError` on every non-dict value. -/
def getItemS (j : JValue) (k : List Char) : Except PyExc JValue :=
  match j with
  | .obj fs =>
    match lookupPairs fs k with
    | some v => .ok v
    | none => .error .keyError
  | _ => .error .typeError

/-- Python subscript `x[k]` where `x` may be `None` (`self.data` after a failed
refresh): `None[...]` raises `TypeError`. -/
def getItemS' (hd : Option JValue) (k : List Char) : Except PyExc JValue :=
  match hd with
  | none => .error .typeError
  | some j => getItemS j k

/-- Python subscript `j[i]` with an integer index: list indexing
(`IndexError` out of range), dict lookup with the integer key (always
`KeyError` for these string-keyed payloads), `TypeError` otherwise. -/
def getItemI (j : JValue) (i : Nat) : Except PyExc JValue :=
  match j with
  | .arr xs =>
    match xs.get? i with
    | some v => .ok v
    | none => .error .indexError
  | .obj _ => .error .keyError
  | _ => .error .typeError

/-- Python store `j[k] = v` on a dict value.  Non-dict values are returned
unchanged: the module stores only to locations it has just read with
`getItemS`, which guarantees a dict. -/
def setItemS (j : JValue) (k : List Char) (v : JValue) : JValue :=
  match j with
  | .obj fs => .obj (setPairs fs k v)
  | other => other

/-- Store through an optional snapshot; `none` is unreachable on the store
paths (each store is guarded by a successful read). -/
def setItemS' (hd : Option JValue) (k : List Char) (v : JValue) : Option JValue :=
  match hd with
  | none => none
  | some j => some (setItemS j k v)

/-- Python store `j[i] = v` on a list value, same unreachability remark. -/
def setIdxJ (j : JValue) (i : Nat) (v : JValue) : JValue :=
  match j with
  | .arr xs => .arr (xs.set i v)
  | other => other

/-- Python attribute access `x.replace` / `x.rstrip`: only `str` carries these
methods; every other value raises `AttributeError`. -/
def asStr (j : JValue) : Except PyExc (List Char) :=
  match j with
  | .str s => .ok s
  | _ => .error .attributeError

/-- Truncation toward zero, the behavior of Python `int` applied to a float. -/
def ratTrunc (q : ℚ) : ℤ :=
  if 0 ≤ q then Int.floor q else -(Int.floor (-q))

/-- Python `int(x)` on a decoded JSON value. -/
def pyIntOf (j : JValue) : Except PyExc ℤ :=
  match j with
  | .str s =>
    match parseInt s with
    | some n => .ok n
    | none => .error .valueError
  | .num q => .ok (ratTrunc q)
  | _ => .error .typeError

/-- Python `float(x)` on a decoded JSON value. -/
def pyFloatOf (j : JValue) : Except PyExc ℚ :=
  match j with
  | .str s =>
    match parseFloat s with
    | some q => .ok q
    | none => .error .valueError
  | .num q => .ok q
  | _ => .error .typeError

/-- The two field-access shapes of `IdmHeatingSensor.update`: a top-level
field `heatingData[k]` or a first-circuit field `heatingData["circuits"][0][k]`. -/
inductive FPath where
  | top (k : List Char)
  | circuit0 (k : List Char)

/-- Evaluate a field access against the (possibly absent) snapshot. -/
def getPath (hd : Option JValue) : FPath → Except PyExc JValue
  | .top k => getItemS' hd k
  | .circuit0 k =>
    match getItemS' hd ("circuits".toList) with
    | .error e => .error e
    | .ok cv =>
      match getItemI cv 0 with
      | .error e => .error e
      | .ok e0 => getItemS e0 k

/-! ## Module constants (lines 41-80 of sensor.py) -/

/-- `MIN_TIME_BETWEEN_UPDATES = timedelta(seconds=300)` (line 41), in seconds. -/
def MIN_TIME_BETWEEN_UPDATES : ℤ := 300

/-- `modeDictionary` (lines 66-68), in insertion order. -/
def modeDictionary : List (List Char × List Char) :=
  [("icon_12".toList, "Aus".toList),
   ("icon_auto".toList, "Automatik".toList),
   ("icon_3".toList, "Warmwasser oder Einmalige WW Ladung".toList)]

/-- `circuitModeDictionary` (lines 70-75), in insertion order. -/
def circuitModeDictionary : List (List Char × List Char) :=
  [("icon_12".toList, "Aus".toList),
   ("icon_24".toList, "Zeitprogramm".toList),
   ("icon_21".toList, "Normal".toList),
   ("icon_11".toList, "Eco".toList),
   ("icon_5".toList, "manuell Heizen".toList),
   ("icon_1".toList, "manuell Kühlen".toList)]

/-- The eleven metric keys of `SENSOR_TYPES` (lines 45-57) — identical to the
keys dispatched by the `elif` chain of `IdmHeatingSensor.update`. -/
def SENSOR_KEYS : List (List Char) :=
  ["mode".toList, "circuit_mode".toList, "errors".toList, "heat_quantity".toList,
   "outside_temp".toList, "forerun_temp_actual".toList, "forerun_temp_target".toList,
   "room_temp_target".toList, "return_flow_temp".toList, "hygienic_temp".toList,
   "water_temp".toList]

/-- A requested metric key has a defined extraction rule. -/
def definedKey (ty : List Char) : Bool := ty ∈ SENSOR_KEYS

/-- The throttle window governing `IdmData.update` of the client built by
`setup_platform`.  `setup_platform` reads `CONF_SCAN_INTERVAL` into
`scanInterval` (line 89) but never uses it; the `Throttle` decorator is applied
once, at class definition, with the module constant `MIN_TIME_BETWEEN_UPDATES`
(lines 41 and 119), so every client's window is that constant, whatever
interval the configuration carries. -/
def clientThrottleWindow (scanInterval : Option ℤ) : ℤ :=
  MIN_TIME_BETWEEN_UPDATES

/-! ## The sensor extraction step (`IdmHeatingSensor.update`, lines 173-211) -/

/-- The `'mode'` branch (lines 174-177): read `heatingData["mode"]`, fold the
per-entry `str.replace` loop over it, store the result back into the shared
snapshot, and assign it to `self._state`.  The loop's per-iteration
read/replace/store collapses to one fold because each store succeeds once the
first read has, and each iteration reads what the previous one stored. -/
def modeBranch (hd : Option JValue) : Except PyExc (Option JValue × Option PyVal) :=
  match getItemS' hd ("mode".toList) with
  | .error e => .error e
  | .ok v =>
    match asStr v with
    | .error e => .error e
    | .ok s =>
      let s1 := applyReplacements modeDictionary s
      .ok (setItemS' hd ("mode".toList) (.str s1), some (.s s1))

/-- The `'circuit_mode'` branch (lines 179-182): same scheme through
`heatingData["circuits"][0]["mode"]`, with the store rebuilding the nested
structure that Python mutates in place. -/
def circuitModeBranch (hd : Option JValue) : Except PyExc (Option JValue × Option PyVal) :=
  match getItemS' hd ("circuits".toList) with
  | .error e => .error e
  | .ok cv =>
    match getItemI cv 0 with
    | .error e => .error e
    | .ok e0 =>
      match getItemS e0 ("mode".toList) with
      | .error e => .error e
      | .ok mv =>
        match asStr mv with
        | .error e => .error e
        | .ok s =>
          let s1 := applyReplacements circuitModeDictionary s
          .ok (setItemS' hd ("circuits".toList)
                 (setIdxJ cv 0 (setItemS e0 ("mode".toList) (.str s1))),
               some (.s s1))

/-- The `'errors'` branch (lines 184-185): `self._state = int(heatingData["error"])`. -/
def errorsBranch (hd : Option JValue) : Except PyExc (Option JValue × Option PyVal) :=
  match getPath hd (.top ("error".toList)) with
  | .error e => .error e
  | .ok v =>
    match pyIntOf v with
    | .error e => .error e
    | .ok n => .ok (hd, some (.i n))

/-- The numeric branches (lines 187-209): read the field at `p`; with
`strip = some cs` apply `.rstrip(cs)` to the string value and `float(...)` to
the result (lines 187-197, 202-209); with `strip = none` apply `float(...)`
directly to the value (`room_temp_target`, line 200). -/
def floatBranch (hd : Option JValue) (p : FPath) (strip : Option (List Char)) :
    Except PyExc (Option JValue × Option PyVal) :=
  match getPath hd p with
  | .error e => .error e
  | .ok v =>
    match strip with
    | some cs =>
      match asStr v with
      | .error e => .error e
      | .ok s =>
        match parseFloat (rstripSet s cs) with
        | some q => .ok (hd, some (.f q))
        | none => .error .valueError
    | none =>
      match pyFloatOf v with
      | .error e => .error e
      | .ok q => .ok (hd, some (.f q))

/-- The body of the `try:` block of `IdmHeatingSensor.update` (lines 173-209):
dispatch on `self.type` exactly as the `elif` chain does.  An unmatched type
falls through with no state assignment and no snapshot access.  The result is
the (possibly mutated) shared snapshot together with the value assigned to
`self._state`, if any. -/
def sensorTryExtract (hd : Option JValue) (ty : List Char) :
    Except PyExc (Option JValue × Option PyVal) :=
  if ty = "mode".toList then modeBranch hd
  else if ty = "circuit_mode".toList then circuitModeBranch hd
  else if ty = "errors".toList then errorsBranch hd
  else if ty = "heat_quantity".toList then
    floatBranch hd (.top ("sum_heat".toList)) (some (" kWh".toList))
  else if ty = "outside_temp".toList then
    floatBranch hd (.top ("temp_outside".toList)) (some (" °C".toList))
  else if ty = "forerun_temp_actual".toList then
    floatBranch hd (.circuit0 ("temp_forerun_actual".toList)) (some (" °C".toList))
  else if ty = "forerun_temp_target".toList then
    floatBranch hd (.circuit0 ("temp_forerun".toList)) (some (" °C".toList))
  else if ty = "room_temp_target".toList then
    floatBranch hd (.circuit0 ("temp_room_value".toList)) none
  else if ty = "return_flow_temp".toList then
    floatBranch hd (.top ("temp_heat".toList)) (some (" °C".toList))
  else if ty = "hygienic_temp".toList then
    floatBranch hd (.top ("temp_hygienic".toList)) (some (" °C".toList))
  else if ty = "water_temp".toList then
    floatBranch hd (.top ("temp_water".toList)) (some (" °C".toList))
  else .ok (hd, none)

/-- Result of one run of the extraction step: the shared snapshot after the
run, the sensor's `_state` after the run, and the exception escaping
`IdmHeatingSensor.update`, if any. -/
structure ExtractResult where
  snap : Option JValue
  state : Option PyVal
  exc : Option PyExc

/-- The `try/except ValueError` wrapper (lines 173, 210-211): a `ValueError`
from a coercion sets `self._state = None`; any other exception escapes with the
state untouched.  Every branch raises, if at all, before its store to the
snapshot, so on an exception the snapshot is the one passed in. -/
def catchVE (hd : Option JValue) (prev : Option PyVal)
    (b : Except PyExc (Option JValue × Option PyVal)) : ExtractResult :=
  match b with
  | .ok (hd', some v) => ⟨hd', some v, none⟩
  | .ok (hd', none) => ⟨hd', prev, none⟩
  | .error .valueError => ⟨hd, none, none⟩
  | .error e => ⟨hd, prev, some e⟩

/-- Lines 171-211 of `IdmHeatingSensor.update`: the extraction pass over the
shared snapshot for one metric key, given the sensor's previous `_state`. -/
def sensorExtract (hd : Option JValue) (ty : List Char) (prev : Option PyVal) :
    ExtractResult :=
  catchVE hd prev (sensorTryExtract hd ty)

/-! ## The remote client (`IdmData`, lines 112-140) -/

/-- Outcome of one `requests.post(...).json()` exchange, supplied by the
environment: a decoded JSON body, a transport-level failure
(`requests.exceptions.RequestException`, which includes `Timeout` — the calls
carry `timeout=10`), or a body that is not JSON (`Response.json()` raises
`requests.exceptions.JSONDecodeError`, a `RequestException` subclass). -/
inductive NetResult where
  | ok (body : JValue)
  | transportErr
  | badJson

/-- What a call to `IdmData.update` produces for its caller: Python `None`
(falling off the end, line 140's absence), `False` (line 140), or an
uncaught exception. -/
inductive PyRet where
  | retNone
  | retFalse
  | exn (e : PyExc)
deriving DecidableEq

/-- Lines 126-127: `token = j["token"]`, then
`installation = j["installations"][0]["id"]`; returns the installation id
value, or the first exception the subscript chain raises. -/
def loginFields (j : JValue) : Except PyExc JValue :=
  match getItemS j ("token".toList) with
  | .error e => .error e
  | .ok _ =>
    match getItemS j ("installations".toList) with
    | .error e => .error e
    | .ok insts =>
      match getItemI insts 0 with
      | .error e => .error e
      | .ok i0 => getItemS i0 ("id".toList)

/-- The body of `IdmData.update` (lines 122-140): login POST, field
extraction, values POST, wrapped in `try/except requests.exceptions.
RequestException`.  Returns the new `self.data`, the Python return, and the
number of network POSTs performed (1 for the login, 2 when the values call is
reached).  A transport error or undecodable body on either POST is caught:
`self.data = None; return False`.  An exception from the subscript chain
(missing `token`/`installations`/`id`) is *not* a `RequestException` and
escapes, leaving `self.data` unchanged. -/
def clientBodyUpdate (login values : NetResult) (d : Option JValue) :
    Option JValue × PyRet × Nat :=
  match login with
  | .transportErr => (none, .retFalse, 1)
  | .badJson => (none, .retFalse, 1)
  | .ok j =>
    match loginFields j with
    | .error e => (d, .exn e, 1)
    | .ok _ =>
      match values with
      | .transportErr => (none, .retFalse, 2)
      | .badJson => (none, .retFalse, 2)
      | .ok body => (some body, .retNone, 2)

/-- The state carried by one `IdmData` instance: `self.data` and the
timestamp of the last non-raising run recorded by its `Throttle` wrapper. -/
structure ClientState where
  data : Option JValue
  lastCall : Option ℤ

/-- The throttle's gate: the wrapped method runs when no timestamp is
recorded yet or strictly more than the window has elapsed since the last
recorded run. -/
def shouldRun (w t : ℤ) (lc : Option ℤ) : Bool :=
  match lc with
  | none => true
  | some l => decide (w < t - l)

/-- Model of the `homeassistant.util.Throttle` decorator (third-party, applied
at line 119): the wrapped method runs only when no timestamp has been
recorded yet or strictly more than the window has elapsed since it; a
throttled call returns `None` with no side effect; the timestamp is recorded
when the wrapped method returns normally, while an escaping exception leaves
it unrecorded.  Times are in seconds. -/
def throttledUpdate (w t : ℤ) (login values : NetResult) (cs : ClientState) :
    ClientState × PyRet × Nat :=
  if shouldRun w t cs.lastCall then
    match clientBodyUpdate login values cs.data with
    | (d', PyRet.exn e, n) => (⟨d', cs.lastCall⟩, PyRet.exn e, n)
    | (d', r, n) => (⟨d', some t⟩, r, n)
  else (cs, PyRet.retNone, 0)

/-- `IdmData.update` as decorated at line 119: `Throttle(MIN_TIME_BETWEEN_UPDATES)`. -/
def idmThrottledUpdate (t : ℤ) (login values : NetResult) (cs : ClientState) :
    ClientState × PyRet × Nat :=
  throttledUpdate MIN_TIME_BETWEEN_UPDATES t login values cs

/-- One sensor entity's own state: its `self.type` and its `self._state`
(`None` at construction, line 151). -/
structure SensorState where
  type : List Char
  state : Option PyVal

/-- The exception escaping a call, read off a `PyRet`. -/
def excOf (r : PyRet) : Option PyExc :=
  match r with
  | .exn e => some e
  | _ => none

/-- `IdmHeatingSensor.update` (lines 169-211) end to end: `self.data.update()`
first (line 170; an exception from it escapes immediately), then the
extraction pass over the shared snapshot, whose snapshot mutation writes back
into the shared client.  Returns the client state, the sensor state, the
escaping exception if any, and the number of network POSTs performed. -/
def sensorUpdate (t : ℤ) (login values : NetResult) (cs : ClientState)
    (ss : SensorState) : ClientState × SensorState × Option PyExc × Nat :=
  let r := idmThrottledUpdate t login values cs
  match r.2.1 with
  | .exn e => (r.1, ss, some e, r.2.2)
  | _ =>
    let er := sensorExtract r.1.data ss.type ss.state
    (⟨er.snap, r.1.lastCall⟩, ⟨ss.type, er.state⟩, er.exc, r.2.2)

/-! ## Helper lemmas -/

theorem dropWhile_append_of_all {p : Char → Bool} {l1 l2 : List Char}
    (h : ∀ a ∈ l1, p a = true) :
    List.dropWhile p (l1 ++ l2) = List.dropWhile p l2 := by
  induction l1 with
  | nil => rfl
  | cons a l ih =>
    have ha : p a = true := h a (List.mem_cons_self a l)
    simp only [List.cons_append, List.dropWhile_cons, ha, if_true]
    exact ih fun b hb => h b (List.mem_cons_of_mem a hb)

theorem getLast?_mem {l : List Char} {d : Char} (h : l.getLast? = some d) : d ∈ l := by
  rcases List.mem_getLast?_eq_getLast (l := l) (x := d) h with ⟨hne, rfl⟩
  exact List.getLast_mem hne

/-- Stripping a character set from `nstr ++ sfx` recovers `nstr` when every
character of `sfx` lies in the set and the last character of `nstr` does not. -/
theorem rstrip_append {nstr sfx cs : List Char} {d : Char}
    (hlast : nstr.getLast? = some d) (hdn : d ∉ cs) (hall : ∀ c ∈ sfx, c ∈ cs) :
    rstripSet (nstr ++ sfx) cs = nstr := by
  unfold rstripSet
  rw [List.reverse_append]
  rw [dropWhile_append_of_all (fun a ha => by
    simp only [decide_eq_true_eq]
    exact hall a (List.mem_reverse.mp ha))]
  have hhead : nstr.reverse.head? = some d := by rw [List.head?_reverse]; exact hlast
  cases hrev : nstr.reverse with
  | nil => rw [hrev] at hhead; cases hhead
  | cons a t =>
    rw [hrev] at hhead
    have ha : a = d := by injection hhead
    subst ha
    rw [List.dropWhile_cons]
    have : (decide (a ∈ cs)) = false := by simp [hdn]
    rw [this]
    simp only [Bool.false_eq_true, if_false]
    rw [← hrev, List.reverse_reverse]

theorem splitDot_none {s a : List Char} (h : splitDot s = (a, none)) : s = a := by
  induction s generalizing a with
  | nil => exact congrArg Prod.fst h
  | cons c rest ih =>
    by_cases hc : c = '.'
    · simp only [splitDot, hc, if_true] at h
      simpa using congrArg Prod.snd h
    · simp only [splitDot, hc, if_false] at h
      have h1 := congrArg Prod.fst h
      have h2 := congrArg Prod.snd h
      simp only at h1 h2
      have hsd : splitDot rest = ((splitDot rest).1, none) := by
        rw [← h2]
      rw [← h1, ← ih hsd]

theorem splitDot_some {s a b : List Char} (h : splitDot s = (a, some b)) :
    s = a ++ '.' :: b := by
  induction s generalizing a b with
  | nil => simpa [splitDot] using congrArg Prod.snd h
  | cons c rest ih =>
    by_cases hc : c = '.'
    · simp only [splitDot, hc, if_true] at h
      have h1 := congrArg Prod.fst h
      have h2 := congrArg Prod.snd h
      simp only at h1 h2
      injection h2 with h2
      rw [← h1, ← h2, hc]
      rfl
    · simp only [splitDot, hc, if_false] at h
      have h1 := congrArg Prod.fst h
      have h2 := congrArg Prod.snd h
      simp only at h1 h2
      have hsd : splitDot rest = ((splitDot rest).1, some b) := by
        rw [← h2]
      rw [← h1, List.cons_append]
      exact congrArg _ (ih hsd)

theorem exists_getLast?_digit {l : List Char} (hne : l.isEmpty = false)
    (hall : l.all isDigitChar = true) :
    ∃ d, l.getLast? = some d ∧ isDigitChar d = true := by
  have hnil : l ≠ [] := by
    cases l with
    | nil => cases hne
    | cons a t => exact List.cons_ne_nil a t
  have hgl := List.getLast?_eq_getLast_of_ne_nil hnil
  refine ⟨l.getLast hnil, hgl, ?_⟩
  exact (List.all_eq_true.mp hall) _ (List.getLast_mem hnil)

theorem parseUnsignedFloat_last_digit {s : List Char} {q : ℚ}
    (h : parseUnsignedFloat s = some q) :
    ∃ d, s.getLast? = some d ∧ isDigitChar d = true := by
  rcases hsd : splitDot s with ⟨ip, fpo⟩
  cases fpo with
  | none =>
    rw [splitDot_none hsd]
    simp only [parseUnsignedFloat, hsd] at h
    by_cases hc : (!ip.isEmpty && ip.all isDigitChar) = true
    · obtain ⟨h1, h2⟩ := Bool.and_eq_true_iff.mp hc
      exact exists_getLast?_digit (by simpa using h1) h2
    · rw [if_neg hc] at h
      cases h
  | some fp =>
    simp only [parseUnsignedFloat, hsd] at h
    by_cases hc : (!ip.isEmpty && !fp.isEmpty && ip.all isDigitChar && fp.all isDigitChar) = true
    · simp only [Bool.and_eq_true] at hc
      obtain ⟨⟨⟨_, hb⟩, _⟩, hdall⟩ := hc
      obtain ⟨d, hd1, hd2⟩ := exists_getLast?_digit (by simpa using hb) hdall
      refine ⟨d, ?_, hd2⟩
      rw [splitDot_some hsd]
      have hsplit : ip ++ '.' :: fp = (ip ++ ['.']) ++ fp := by simp
      rw [hsplit, List.getLast?_append, hd1]
      rfl
    · rw [if_neg hc] at h
      cases h

theorem parseFloat_last_digit {s : List Char} {q : ℚ}
    (h : parseFloat s = some q) :
    ∃ d, s.getLast? = some d ∧ isDigitChar d = true := by
  cases s with
  | nil => cases h
  | cons c rest =>
    simp only [parseFloat] at h
    by_cases hm : c = '-'
    · rw [if_pos hm] at h
      rcases hu : parseUnsignedFloat rest with _ | q'
      · rw [hu] at h
        cases h
      · obtain ⟨d, hd1, hd2⟩ := parseUnsignedFloat_last_digit hu
        refine ⟨d, ?_, hd2⟩
        cases rest with
        | nil => cases hd1
        | cons a t =>
          rw [List.getLast?_cons_cons]
          exact hd1
    · rw [if_neg hm] at h
      by_cases hp : c = '+'
      · rw [if_pos hp] at h
        obtain ⟨d, hd1, hd2⟩ := parseUnsignedFloat_last_digit h
        refine ⟨d, ?_, hd2⟩
        cases rest with
        | nil => cases hd1
        | cons a t =>
          rw [List.getLast?_cons_cons]
          exact hd1
      · rw [if_neg hp] at h
        exact parseUnsignedFloat_last_digit h

/-- A suffix-stripped numeric branch on a well-formed field: the value is the
numeric string followed by the unit suffix, and the numeric string parses. -/
theorem floatBranch_strip_ok {hd : Option JValue} {p : FPath} {sfx nstr : List Char} {q : ℚ}
    (hnd : sfx.all (fun c => !(isDigitChar c)) = true)
    (hget : getPath hd p = .ok (.str (nstr ++ sfx)))
    (hparse : parseFloat nstr = some q) :
    floatBranch hd p (some sfx) = .ok (hd, some (.f q)) := by
  obtain ⟨d, hd1, hd2⟩ := parseFloat_last_digit hparse
  have hstrip : rstripSet (nstr ++ sfx) sfx = nstr := by
    refine rstrip_append hd1 ?_ (fun c hc => hc)
    intro hmem
    have hx := (List.all_eq_true.mp hnd) d hmem
    rw [hd2] at hx
    cases hx
  simp only [floatBranch, hget, asStr]
  rw [hstrip, hparse]

/-- The no-strip numeric branch (`room_temp_target`) on a parseable string. -/
theorem floatBranch_nostrip_ok {hd : Option JValue} {p : FPath} {nstr : List Char} {q : ℚ}
    (hget : getPath hd p = .ok (.str nstr))
    (hparse : parseFloat nstr = some q) :
    floatBranch hd p none = .ok (hd, some (.f q)) := by
  simp only [floatBranch, hget, pyFloatOf]
  rw [hparse]

/-- The `errors` branch on a well-formed field. -/
theorem errorsBranch_ok {hd : Option JValue} {e : List Char} {n : ℤ}
    (hget : getPath hd (.top ("error".toList)) = .ok (.str e))
    (hparse : parseInt e = some n) :
    errorsBranch hd = .ok (hd, some (.i n)) := by
  simp only [errorsBranch, hget, pyIntOf]
  rw [hparse]

/-- A suffix-stripped numeric branch on an unparseable string raises
`ValueError`. -/
theorem floatBranch_strip_fail {hd : Option JValue} {p : FPath} {sfx v : List Char}
    (hget : getPath hd p = .ok (.str v))
    (hparse : parseFloat (rstripSet v sfx) = none) :
    floatBranch hd p (some sfx) = .error .valueError := by
  simp only [floatBranch, hget, asStr]
  rw [hparse]

/-- The no-strip numeric branch on an unparseable string raises `ValueError`. -/
theorem floatBranch_nostrip_fail {hd : Option JValue} {p : FPath} {v : List Char}
    (hget : getPath hd p = .ok (.str v))
    (hparse : parseFloat v = none) :
    floatBranch hd p none = .error .valueError := by
  simp only [floatBranch, hget, pyFloatOf]
  rw [hparse]

/-- The `errors` branch on an unparseable string raises `ValueError`. -/
theorem errorsBranch_fail {hd : Option JValue} {v : List Char}
    (hget : getPath hd (.top ("error".toList)) = .ok (.str v))
    (hparse : parseInt v = none) :
    errorsBranch hd = .error .valueError := by
  simp only [errorsBranch, hget, pyIntOf]
  rw [hparse]

/-- Numeric branches never touch the snapshot: a normal return carries the
snapshot through unchanged. -/
theorem floatBranch_ok_fst {hd : Option JValue} {p : FPath} {strip : Option (List Char)}
    {r : Option JValue × Option PyVal} (h : floatBranch hd p strip = .ok r) :
    r.1 = hd := by
  unfold floatBranch at h
  repeat' split at h
  all_goals cases h
  all_goals rfl

/-- Same snapshot-invariance for the `errors` branch. -/
theorem errorsBranch_ok_fst {hd : Option JValue}
    {r : Option JValue × Option PyVal} (h : errorsBranch hd = .ok r) :
    r.1 = hd := by
  unfold errorsBranch at h
  repeat' split at h
  all_goals cases h
  all_goals rfl

/-- The `mode` branch on a well-formed field: replaced string stored back and
assigned. -/
theorem modeBranch_ok {hd : Option JValue} {m : List Char}
    (hget : getItemS' hd ("mode".toList) = .ok (.str m)) :
    modeBranch hd =
      .ok (setItemS' hd ("mode".toList) (.str (applyReplacements modeDictionary m)),
           some (.s (applyReplacements modeDictionary m))) := by
  simp only [modeBranch, hget, asStr]

/-- The `circuit_mode` branch on a well-formed nested field. -/
theorem circuitModeBranch_ok {hd : Option JValue} {cv e0 : JValue} {m : List Char}
    (h1 : getItemS' hd ("circuits".toList) = .ok cv)
    (h2 : getItemI cv 0 = .ok e0)
    (h3 : getItemS e0 ("mode".toList) = .ok (.str m)) :
    circuitModeBranch hd =
      .ok (setItemS' hd ("circuits".toList)
             (setIdxJ cv 0 (setItemS e0 ("mode".toList)
                (.str (applyReplacements circuitModeDictionary m)))),
           some (.s (applyReplacements circuitModeDictionary m))) := by
  simp only [circuitModeBranch, h1, h2, h3, asStr]

/-! ## Claim theorems -/

/-- Claim C1: for every metric key with a defined extraction rule, a snapshot
holding a well-formed value for that key's field makes the extraction pass of
`IdmHeatingSensor.update` assign the documented coercion of that value, with
no exception: `mode`/`circuit_mode` assign the token-replaced string, `errors`
assigns the parsed integer, the suffix-bearing temperature/energy keys assign
the float parsed from the numeric part in front of the unit suffix, and
`room_temp_target` assigns the float parsed with no suffix stripped. -/
theorem c1_extraction_yields_documented_coercion :
    (∀ hd m prev, getItemS' hd ("mode".toList) = .ok (.str m) →
      (sensorExtract hd ("mode".toList) prev).state =
          some (.s (applyReplacements modeDictionary m)) ∧
        (sensorExtract hd ("mode".toList) prev).exc = none)
  ∧ (∀ hd cv e0 m prev, getItemS' hd ("circuits".toList) = .ok cv →
      getItemI cv 0 = .ok e0 → getItemS e0 ("mode".toList) = .ok (.str m) →
      (sensorExtract hd ("circuit_mode".toList) prev).state =
          some (.s (applyReplacements circuitModeDictionary m)) ∧
        (sensorExtract hd ("circuit_mode".toList) prev).exc = none)
  ∧ (∀ hd e n prev, getPath hd (.top ("error".toList)) = .ok (.str e) →
      parseInt e = some n →
      (sensorExtract hd ("errors".toList) prev).state = some (.i n) ∧
        (sensorExtract hd ("errors".toList) prev).exc = none)
  ∧ (∀ hd nstr q prev,
      getPath hd (.top ("sum_heat".toList)) = .ok (.str (nstr ++ " kWh".toList)) →
      parseFloat nstr = some q →
      (sensorExtract hd ("heat_quantity".toList) prev).state = some (.f q) ∧
        (sensorExtract hd ("heat_quantity".toList) prev).exc = none)
  ∧ (∀ hd nstr q prev,
      getPath hd (.top ("temp_outside".toList)) = .ok (.str (nstr ++ " °C".toList)) →
      parseFloat nstr = some q →
      (sensorExtract hd ("outside_temp".toList) prev).state = some (.f q) ∧
        (sensorExtract hd ("outside_temp".toList) prev).exc = none)
  ∧ (∀ hd nstr q prev,
      getPath hd (.circuit0 ("temp_forerun_actual".toList)) = .ok (.str (nstr ++ " °C".toList)) →
      parseFloat nstr = some q →
      (sensorExtract hd ("forerun_temp_actual".toList) prev).state = some (.f q) ∧
        (sensorExtract hd ("forerun_temp_actual".toList) prev).exc = none)
  ∧ (∀ hd nstr q prev,
      getPath hd (.circuit0 ("temp_forerun".toList)) = .ok (.str (nstr ++ " °C".toList)) →
      parseFloat nstr = some q →
      (sensorExtract hd ("forerun_temp_target".toList) prev).state = some (.f q) ∧
        (sensorExtract hd ("forerun_temp_target".toList) prev).exc = none)
  ∧ (∀ hd nstr q prev,
      getPath hd (.circuit0 ("temp_room_value".toList)) = .ok (.str nstr) →
      parseFloat nstr = some q →
      (sensorExtract hd ("room_temp_target".toList) prev).state = some (.f q) ∧
        (sensorExtract hd ("room_temp_target".toList) prev).exc = none)
  ∧ (∀ hd nstr q prev,
      getPath hd (.top ("temp_heat".toList)) = .ok (.str (nstr ++ " °C".toList)) →
      parseFloat nstr = some q →
      (sensorExtract hd ("return_flow_temp".toList) prev).state = some (.f q) ∧
        (sensorExtract hd ("return_flow_temp".toList) prev).exc = none)
  ∧ (∀ hd nstr q prev,
      getPath hd (.top ("temp_hygienic".toList)) = .ok (.str (nstr ++ " °C".toList)) →
      parseFloat nstr = some q →
      (sensorExtract hd ("hygienic_temp".toList) prev).state = some (.f q) ∧
        (sensorExtract hd ("hygienic_temp".toList) prev).exc = none)
  ∧ (∀ hd nstr q prev,
      getPath hd (.top ("temp_water".toList)) = .ok (.str (nstr ++ " °C".toList)) →
      parseFloat nstr = some q →
      (sensorExtract hd ("water_temp".toList) prev).state = some (.f q) ∧
        (sensorExtract hd ("water_temp".toList) prev).exc = none) := by
  refine ⟨?_, ?_, ?_, ?_, ?_, ?_, ?_, ?_, ?_, ?_, ?_⟩
  · intro hd m prev hget
    have hb : sensorTryExtract hd ("mode".toList) = modeBranch hd := rfl
    unfold sensorExtract
    rw [hb, modeBranch_ok hget]
    exact ⟨rfl, rfl⟩
  · intro hd cv e0 m prev h1 h2 h3
    have hb : sensorTryExtract hd ("circuit_mode".toList) = circuitModeBranch hd := rfl
    unfold sensorExtract
    rw [hb, circuitModeBranch_ok h1 h2 h3]
    exact ⟨rfl, rfl⟩
  · intro hd e n prev hget hparse
    have hb : sensorTryExtract hd ("errors".toList) = errorsBranch hd := rfl
    unfold sensorExtract
    rw [hb, errorsBranch_ok hget hparse]
    exact ⟨rfl, rfl⟩
  · intro hd nstr q prev hget hparse
    have hb : sensorTryExtract hd ("heat_quantity".toList) =
        floatBranch hd (.top ("sum_heat".toList)) (some (" kWh".toList)) := rfl
    unfold sensorExtract
    rw [hb, floatBranch_strip_ok (by decide) hget hparse]
    exact ⟨rfl, rfl⟩
  · intro hd nstr q prev hget hparse
    have hb : sensorTryExtract hd ("outside_temp".toList) =
        floatBranch hd (.top ("temp_outside".toList)) (some (" °C".toList)) := rfl
    unfold sensorExtract
    rw [hb, floatBranch_strip_ok (by decide) hget hparse]
    exact ⟨rfl, rfl⟩
  · intro hd nstr q prev hget hparse
    have hb : sensorTryExtract hd ("forerun_temp_actual".toList) =
        floatBranch hd (.circuit0 ("temp_forerun_actual".toList)) (some (" °C".toList)) := rfl
    unfold sensorExtract
    rw [hb, floatBranch_strip_ok (by decide) hget hparse]
    exact ⟨rfl, rfl⟩
  · intro hd nstr q prev hget hparse
    have hb : sensorTryExtract hd ("forerun_temp_target".toList) =
        floatBranch hd (.circuit0 ("temp_forerun".toList)) (some (" °C".toList)) := rfl
    unfold sensorExtract
    rw [hb, floatBranch_strip_ok (by decide) hget hparse]
    exact ⟨rfl, rfl⟩
  · intro hd nstr q prev hget hparse
    have hb : sensorTryExtract hd ("room_temp_target".toList) =
        floatBranch hd (.circuit0 ("temp_room_value".toList)) none := rfl
    unfold sensorExtract
    rw [hb, floatBranch_nostrip_ok hget hparse]
    exact ⟨rfl, rfl⟩
  · intro hd nstr q prev hget hparse
    have hb : sensorTryExtract hd ("return_flow_temp".toList) =
        floatBranch hd (.top ("temp_heat".toList)) (some (" °C".toList)) := rfl
    unfold sensorExtract
    rw [hb, floatBranch_strip_ok (by decide) hget hparse]
    exact ⟨rfl, rfl⟩
  · intro hd nstr q prev hget hparse
    have hb : sensorTryExtract hd ("hygienic_temp".toList) =
        floatBranch hd (.top ("temp_hygienic".toList)) (some (" °C".toList)) := rfl
    unfold sensorExtract
    rw [hb, floatBranch_strip_ok (by decide) hget hparse]
    exact ⟨rfl, rfl⟩
  · intro hd nstr q prev hget hparse
    have hb : sensorTryExtract hd ("water_temp".toList) =
        floatBranch hd (.top ("temp_water".toList)) (some (" °C".toList)) := rfl
    unfold sensorExtract
    rw [hb, floatBranch_strip_ok (by decide) hget hparse]
    exact ⟨rfl, rfl⟩

/-- Witness for C1 at the spec's three examples: snapshot `{"error": "3"}`
gives integer `3`, `{"temp_outside": "21.5 °C"}` gives float `21.5`, and
`{"mode": "icon_auto"}` gives the string `"Automatik"`. -/
theorem c1_extraction_yields_documented_coercion_witness :
    (sensorExtract (some (JValue.obj [("error".toList, JValue.str ("3".toList))]))
        ("errors".toList) none).state = some (.i 3)
  ∧ (sensorExtract (some (JValue.obj [("temp_outside".toList,
        JValue.str ("21.5 °C".toList))])) ("outside_temp".toList) none).state =
      some (.f 21.5)
  ∧ (sensorExtract (some (JValue.obj [("mode".toList,
        JValue.str ("icon_auto".toList))])) ("mode".toList) none).state =
      some (.s ("Automatik".toList)) := by
  refine ⟨?_, ?_, ?_⟩
  · exact (c1_extraction_yields_documented_coercion.2.2.1
      (some (JValue.obj [("error".toList, JValue.str ("3".toList))]))
      ("3".toList) 3 none rfl (by decide)).1
  · have hp : parseFloat ("21.5".toList) = some (21.5 : ℚ) := by
      rw [show parseFloat ("21.5".toList) = some ((21 : ℚ) + (5 : ℚ) / 10 ^ 1) from rfl]
      norm_num
    exact (c1_extraction_yields_documented_coercion.2.2.2.2.1
      (some (JValue.obj [("temp_outside".toList, JValue.str ("21.5 °C".toList))]))
      ("21.5".toList) (21.5 : ℚ) none rfl hp).1
  · have h := (c1_extraction_yields_documented_coercion.1
      (some (JValue.obj [("mode".toList, JValue.str ("icon_auto".toList))]))
      ("icon_auto".toList) none rfl).1
    rw [h]
    decide

/-- Claim C5: when a metric's field is present but its string value does not
parse as the target numeric type after suffix stripping, the extraction pass
sets that metric's value to absent (`None`), raises nothing, and leaves the
shared snapshot untouched — stated for each of the nine numeric keys. -/
theorem c5_coercion_failure_resolves_absent :
    (∀ hd v prev, getPath hd (.top ("error".toList)) = .ok (.str v) →
      parseInt v = none →
      sensorExtract hd ("errors".toList) prev = ⟨hd, none, none⟩)
  ∧ (∀ hd v prev, getPath hd (.top ("sum_heat".toList)) = .ok (.str v) →
      parseFloat (rstripSet v (" kWh".toList)) = none →
      sensorExtract hd ("heat_quantity".toList) prev = ⟨hd, none, none⟩)
  ∧ (∀ hd v prev, getPath hd (.top ("temp_outside".toList)) = .ok (.str v) →
      parseFloat (rstripSet v (" °C".toList)) = none →
      sensorExtract hd ("outside_temp".toList) prev = ⟨hd, none, none⟩)
  ∧ (∀ hd v prev, getPath hd (.circuit0 ("temp_forerun_actual".toList)) = .ok (.str v) →
      parseFloat (rstripSet v (" °C".toList)) = none →
      sensorExtract hd ("forerun_temp_actual".toList) prev = ⟨hd, none, none⟩)
  ∧ (∀ hd v prev, getPath hd (.circuit0 ("temp_forerun".toList)) = .ok (.str v) →
      parseFloat (rstripSet v (" °C".toList)) = none →
      sensorExtract hd ("forerun_temp_target".toList) prev = ⟨hd, none, none⟩)
  ∧ (∀ hd v prev, getPath hd (.circuit0 ("temp_room_value".toList)) = .ok (.str v) →
      parseFloat v = none →
      sensorExtract hd ("room_temp_target".toList) prev = ⟨hd, none, none⟩)
  ∧ (∀ hd v prev, getPath hd (.top ("temp_heat".toList)) = .ok (.str v) →
      parseFloat (rstripSet v (" °C".toList)) = none →
      sensorExtract hd ("return_flow_temp".toList) prev = ⟨hd, none, none⟩)
  ∧ (∀ hd v prev, getPath hd (.top ("temp_hygienic".toList)) = .ok (.str v) →
      parseFloat (rstripSet v (" °C".toList)) = none →
      sensorExtract hd ("hygienic_temp".toList) prev = ⟨hd, none, none⟩)
  ∧ (∀ hd v prev, getPath hd (.top ("temp_water".toList)) = .ok (.str v) →
      parseFloat (rstripSet v (" °C".toList)) = none →
      sensorExtract hd ("water_temp".toList) prev = ⟨hd, none, none⟩) := by
  refine ⟨?_, ?_, ?_, ?_, ?_, ?_, ?_, ?_, ?_⟩
  · intro hd v prev hget hparse
    have hb : sensorTryExtract hd ("errors".toList) = errorsBranch hd := rfl
    unfold sensorExtract
    rw [hb, errorsBranch_fail hget hparse]
    rfl
  · intro hd v prev hget hparse
    have hb : sensorTryExtract hd ("heat_quantity".toList) =
        floatBranch hd (.top ("sum_heat".toList)) (some (" kWh".toList)) := rfl
    unfold sensorExtract
    rw [hb, floatBranch_strip_fail hget hparse]
    rfl
  · intro hd v prev hget hparse
    have hb : sensorTryExtract hd ("outside_temp".toList) =
        floatBranch hd (.top ("temp_outside".toList)) (some (" °C".toList)) := rfl
    unfold sensorExtract
    rw [hb, floatBranch_strip_fail hget hparse]
    rfl
  · intro hd v prev hget hparse
    have hb : sensorTryExtract hd ("forerun_temp_actual".toList) =
        floatBranch hd (.circuit0 ("temp_forerun_actual".toList)) (some (" °C".toList)) := rfl
    unfold sensorExtract
    rw [hb, floatBranch_strip_fail hget hparse]
    rfl
  · intro hd v prev hget hparse
    have hb : sensorTryExtract hd ("forerun_temp_target".toList) =
        floatBranch hd (.circuit0 ("temp_forerun".toList)) (some (" °C".toList)) := rfl
    unfold sensorExtract
    rw [hb, floatBranch_strip_fail hget hparse]
    rfl
  · intro hd v prev hget hparse
    have hb : sensorTryExtract hd ("room_temp_target".toList) =
        floatBranch hd (.circuit0 ("temp_room_value".toList)) none := rfl
    unfold sensorExtract
    rw [hb, floatBranch_nostrip_fail hget hparse]
    rfl
  · intro hd v prev hget hparse
    have hb : sensorTryExtract hd ("return_flow_temp".toList) =
        floatBranch hd (.top ("temp_heat".toList)) (some (" °C".toList)) := rfl
    unfold sensorExtract
    rw [hb, floatBranch_strip_fail hget hparse]
    rfl
  · intro hd v prev hget hparse
    have hb : sensorTryExtract hd ("hygienic_temp".toList) =
        floatBranch hd (.top ("temp_hygienic".toList)) (some (" °C".toList)) := rfl
    unfold sensorExtract
    rw [hb, floatBranch_strip_fail hget hparse]
    rfl
  · intro hd v prev hget hparse
    have hb : sensorTryExtract hd ("water_temp".toList) =
        floatBranch hd (.top ("temp_water".toList)) (some (" °C".toList)) := rfl
    unfold sensorExtract
    rw [hb, floatBranch_strip_fail hget hparse]
    rfl

/-- Witness for C5 at the spec's example: `{"sum_heat": "not-a-number kWh"}`
resolves `heat_quantity` to absent, without exception, snapshot unchanged. -/
theorem c5_coercion_failure_resolves_absent_witness :
    sensorExtract (some (JValue.obj [("sum_heat".toList,
        JValue.str ("not-a-number kWh".toList))])) ("heat_quantity".toList) none =
      ⟨some (JValue.obj [("sum_heat".toList, JValue.str ("not-a-number kWh".toList))]),
       none, none⟩ :=
  c5_coercion_failure_resolves_absent.2.1
    (some (JValue.obj [("sum_heat".toList, JValue.str ("not-a-number kWh".toList))]))
    ("not-a-number kWh".toList) none rfl (by decide)

theorem catchVE_fst {hd : Option JValue} {prev : Option PyVal}
    {b : Except PyExc (Option JValue × Option PyVal)}
    (hb : ∀ hd' st, b = .ok (hd', st) → hd' = hd) :
    (catchVE hd prev b).snap = hd := by
  cases b with
  | ok p =>
    rcases p with ⟨hd', st⟩
    cases st with
    | none => exact hb hd' none rfl
    | some v => exact hb hd' (some v) rfl
  | error e => cases e <;> rfl

/-- Counterexample for C8: the claim says extraction never modifies the
client's snapshot, but both token-replacement branches do.  Running the `mode`
extraction on the snapshot `{"mode": "icon_auto"}` rewrites the shared
snapshot's `mode` field to `"Automatik"`, and running the `circuit_mode`
extraction on `{"circuits": [{"mode": "icon_24"}]}` rewrites the first
circuit's `mode` field to `"Zeitprogramm"`, so in both cases the snapshot
after extraction differs from the one before. -/
theorem c8_counterexample_extraction_mutates_snapshot :
    ((sensorExtract (some (JValue.obj [("mode".toList, JValue.str ("icon_auto".toList))]))
        ("mode".toList) none).snap ≠
      some (JValue.obj [("mode".toList, JValue.str ("icon_auto".toList))]))
  ∧ ((sensorExtract (some (JValue.obj [("circuits".toList,
        JValue.arr [JValue.obj [("mode".toList, JValue.str ("icon_24".toList))]])]))
        ("circuit_mode".toList) none).snap ≠
      some (JValue.obj [("circuits".toList,
        JValue.arr [JValue.obj [("mode".toList, JValue.str ("icon_24".toList))]])])) := by
  constructor
  · intro h
    have h2 : ("Automatik".toList : List Char) = "icon_auto".toList :=
      congrArg (fun o => match o with
        | some (JValue.obj ((_, JValue.str s) :: _)) => s
        | _ => ([] : List Char)) h
    exact absurd h2 (by decide)
  · intro h
    have h2 : ("Zeitprogramm".toList : List Char) = "icon_24".toList :=
      congrArg (fun o => match o with
        | some (JValue.obj ((_, JValue.arr (JValue.obj ((_, JValue.str s) :: _) :: _)) :: _)) => s
        | _ => ([] : List Char)) h
    exact absurd h2 (by decide)

/-- Claim C8 (amended): extraction is deterministic in the snapshot and key
(re-running it on an unchanged snapshot yields the identical value, which in
this functional model is definitional), and for every key other than `mode`
and `circuit_mode` it leaves the client's snapshot unchanged; the `mode` and
`circuit_mode` branches, however, write the label-replaced string back into
the client's shared snapshot, so for those two keys extraction does modify
it. -/
theorem c8_amended_snapshot_frame :
    (∀ hd ty prev, ty ≠ "mode".toList → ty ≠ "circuit_mode".toList →
      (sensorExtract hd ty prev).snap = hd)
  ∧ (∀ hd m prev, getItemS' hd ("mode".toList) = .ok (.str m) →
      (sensorExtract hd ("mode".toList) prev).snap =
        setItemS' hd ("mode".toList) (.str (applyReplacements modeDictionary m)))
  ∧ (∀ hd cv e0 m prev, getItemS' hd ("circuits".toList) = .ok cv →
      getItemI cv 0 = .ok e0 → getItemS e0 ("mode".toList) = .ok (.str m) →
      (sensorExtract hd ("circuit_mode".toList) prev).snap =
        setItemS' hd ("circuits".toList)
          (setIdxJ cv 0 (setItemS e0 ("mode".toList)
            (.str (applyReplacements circuitModeDictionary m))))) := by
  refine ⟨?_, ?_, ?_⟩
  · intro hd ty prev h1 h2
    unfold sensorExtract
    refine catchVE_fst ?_
    intro hd' st
    unfold sensorTryExtract
    rw [if_neg h1, if_neg h2]
    split_ifs <;> intro h
    all_goals
      first
      | exact errorsBranch_ok_fst h
      | exact floatBranch_ok_fst h
      | (injection h with h3
         exact (congrArg Prod.fst h3).symm)
  · intro hd m prev hget
    have hb : sensorTryExtract hd ("mode".toList) = modeBranch hd := rfl
    unfold sensorExtract
    rw [hb, modeBranch_ok hget]
    rfl
  · intro hd cv e0 m prev h1 h2 h3
    have hb : sensorTryExtract hd ("circuit_mode".toList) = circuitModeBranch hd := rfl
    unfold sensorExtract
    rw [hb, circuitModeBranch_ok h1 h2 h3]
    rfl

/-- Witness for the amended C8: a numeric key (`outside_temp`) leaves the
snapshot unchanged, on `{"mode": "icon_auto"}` the `mode` key stores the
replaced string back, and on `{"circuits": [{"mode": "icon_24"}]}` the
`circuit_mode` key stores the replaced string back into the first circuit. -/
theorem c8_amended_snapshot_frame_witness :
    (sensorExtract (some (JValue.obj [("temp_outside".toList,
        JValue.str ("21.5 °C".toList))])) ("outside_temp".toList) none).snap =
      some (JValue.obj [("temp_outside".toList, JValue.str ("21.5 °C".toList))])
  ∧ (sensorExtract (some (JValue.obj [("mode".toList, JValue.str ("icon_auto".toList))]))
        ("mode".toList) none).snap =
      setItemS' (some (JValue.obj [("mode".toList, JValue.str ("icon_auto".toList))]))
        ("mode".toList) (.str (applyReplacements modeDictionary ("icon_auto".toList)))
  ∧ (sensorExtract (some (JValue.obj [("circuits".toList,
        JValue.arr [JValue.obj [("mode".toList, JValue.str ("icon_24".toList))]])]))
        ("circuit_mode".toList) none).snap =
      setItemS' (some (JValue.obj [("circuits".toList,
          JValue.arr [JValue.obj [("mode".toList, JValue.str ("icon_24".toList))]])]))
        ("circuits".toList)
        (setIdxJ (JValue.arr [JValue.obj [("mode".toList, JValue.str ("icon_24".toList))]]) 0
          (setItemS (JValue.obj [("mode".toList, JValue.str ("icon_24".toList))])
            ("mode".toList)
            (.str (applyReplacements circuitModeDictionary ("icon_24".toList))))) :=
  ⟨c8_amended_snapshot_frame.1
      (some (JValue.obj [("temp_outside".toList, JValue.str ("21.5 °C".toList))]))
      ("outside_temp".toList) none (by decide) (by decide),
   c8_amended_snapshot_frame.2.1
      (some (JValue.obj [("mode".toList, JValue.str ("icon_auto".toList))]))
      ("icon_auto".toList) none rfl,
   c8_amended_snapshot_frame.2.2
      (some (JValue.obj [("circuits".toList,
        JValue.arr [JValue.obj [("mode".toList, JValue.str ("icon_24".toList))]])]))
      (JValue.arr [JValue.obj [("mode".toList, JValue.str ("icon_24".toList))]])
      (JValue.obj [("mode".toList, JValue.str ("icon_24".toList))])
      ("icon_24".toList) none rfl rfl rfl⟩

/-- Counterexample for C9: the claim says no token of either replacement
dictionary is a substring of another token of the same dictionary and that the
replacements therefore commute; but in `circuitModeDictionary` the token
`icon_1` is a substring (in fact a prefix) of the token `icon_12`, and on the
input `"icon_12"` applying the entries in reversed order yields a different
result than insertion order. -/
theorem c9_counterexample_circuit_tokens_overlap :
    (("icon_1".toList, "manuell Kühlen".toList) ∈ circuitModeDictionary)
  ∧ (("icon_12".toList, "Aus".toList) ∈ circuitModeDictionary)
  ∧ hasSubstr ("icon_12".toList) ("icon_1".toList) = true
  ∧ applyReplacements circuitModeDictionary.reverse ("icon_12".toList) ≠
      applyReplacements circuitModeDictionary ("icon_12".toList) := by
  refine ⟨by decide, by decide, by decide, by decide⟩

/-- Claim C9 (amended): in `modeDictionary` no token is a substring of another
token, but in `circuitModeDictionary` the token `icon_1` is a substring of
both `icon_12` and `icon_11`, so there the result of the literal substring
replacements depends on the order of application (the code applies them in
dictionary insertion order, which lists the longer tokens first). -/
theorem c9_amended_token_overlap :
    List.Pairwise (fun a b : List Char × List Char =>
      hasSubstr a.1 b.1 = false ∧ hasSubstr b.1 a.1 = false) modeDictionary
  ∧ hasSubstr ("icon_12".toList) ("icon_1".toList) = true
  ∧ hasSubstr ("icon_11".toList) ("icon_1".toList) = true
  ∧ applyReplacements circuitModeDictionary.reverse ("icon_12".toList) ≠
      applyReplacements circuitModeDictionary ("icon_12".toList) := by
  refine ⟨by decide, by decide, by decide, by decide⟩

/-- Counterexample for C7: the claim says the throttle window equals the
configured poll interval; but with a configured interval of 60 seconds the
window governing the client's refresh is still 300 seconds. -/
theorem c7_counterexample_window_ignores_configured_interval :
    clientThrottleWindow (some 60) = 300 ∧ (300 : ℤ) ≠ 60 :=
  ⟨rfl, by decide⟩

/-- Claim C7 (amended): the throttle window governing the client's refresh is
the fixed 300 seconds for every configuration; the configured poll interval is
read during setup but never used for the window. -/
theorem c7_amended_window_constant :
    ∀ si : Option ℤ, clientThrottleWindow si = 300 :=
  fun _ => rfl

/-- Claim C4: a transport-level error (timeout included) on either network
call of the client's refresh is caught: the snapshot is set to absent, the
refresh returns `False`, and no exception escapes.  The second conjunct
assumes the login body yielded its fields, which is what it means for the
transport error to occur on the second call. -/
theorem c4_transport_errors_caught :
    (∀ (values : NetResult) (d : Option JValue),
      clientBodyUpdate .transportErr values d = (none, .retFalse, 1))
  ∧ (∀ (j x : JValue) (d : Option JValue), loginFields j = .ok x →
      clientBodyUpdate (.ok j) .transportErr d = (none, .retFalse, 2)) := by
  constructor
  · intro values d
    rfl
  · intro j x d hj
    simp only [clientBodyUpdate, hj]

/-- Witness for C4: a timeout on the login call with an arbitrary snapshot in
place, and a timeout on the values call after a well-formed login response. -/
theorem c4_transport_errors_caught_witness :
    clientBodyUpdate .transportErr .transportErr
        (some (JValue.obj [("mode".toList, JValue.str ("icon_auto".toList))])) =
      (none, .retFalse, 1)
  ∧ clientBodyUpdate
      (.ok (JValue.obj [("token".toList, JValue.str ("t".toList)),
        ("installations".toList,
          JValue.arr [JValue.obj [("id".toList, JValue.str ("1".toList))]])]))
      .transportErr
      (some (JValue.obj [("mode".toList, JValue.str ("icon_auto".toList))])) =
      (none, .retFalse, 2) :=
  ⟨c4_transport_errors_caught.1 .transportErr
      (some (JValue.obj [("mode".toList, JValue.str ("icon_auto".toList))])),
   c4_transport_errors_caught.2
      (JValue.obj [("token".toList, JValue.str ("t".toList)),
        ("installations".toList,
          JValue.arr [JValue.obj [("id".toList, JValue.str ("1".toList))]])])
      (JValue.str ("1".toList))
      (some (JValue.obj [("mode".toList, JValue.str ("icon_auto".toList))]))
      rfl⟩

/-- A call whose gate is closed (timestamp recorded, elapsed time at most the
window) is a no-op: state unchanged, `None` returned, zero network calls. -/
theorem throttledUpdate_within_window {w t2 t1 : ℤ} {l2 v2 : NetResult}
    {cs : ClientState} (hlc : cs.lastCall = some t1) (hle : t2 - t1 ≤ w) :
    throttledUpdate w t2 l2 v2 cs = (cs, .retNone, 0) := by
  unfold throttledUpdate
  have hfalse : shouldRun w t2 cs.lastCall = false := by
    rw [hlc]
    unfold shouldRun
    simp only [decide_eq_false_iff_not]
    omega
  rw [hfalse]
  simp only [Bool.false_eq_true, if_false]

/-- A call that performed a network exchange and returned normally recorded
its own time as the throttle timestamp. -/
theorem throttledUpdate_ran_lastCall {w t : ℤ} {l v : NetResult} {cs : ClientState}
    (hn : 0 < (throttledUpdate w t l v cs).2.2)
    (hr : ∀ e, (throttledUpdate w t l v cs).2.1 ≠ .exn e) :
    (throttledUpdate w t l v cs).1.lastCall = some t := by
  unfold throttledUpdate at hn hr ⊢
  by_cases hrun : shouldRun w t cs.lastCall = true
  · rw [if_pos hrun] at hn hr ⊢
    rcases hcb : clientBodyUpdate l v cs.data with ⟨d', r, n⟩
    rw [hcb] at hn hr
    cases r with
    | exn e => exact absurd rfl (hr e)
    | retNone => rfl
    | retFalse => rfl
  · rw [if_neg hrun] at hn
    exact absurd hn (by simp)

/-- Counterexample for C3: the claim quantifies over every pair of refresh
calls separated by less than the throttle window, but when the first call
raises the uncaught login-field `KeyError` (token-less login body), the
`Throttle` wrapper never records its timestamp, so a second call 100 seconds
later — well inside the 300-second window — performs another network exchange
instead of being a no-op: both calls of this pair issue one POST each. -/
theorem c3_counterexample_uncaught_exception_evades_throttle :
    (100 : ℤ) - 0 < MIN_TIME_BETWEEN_UPDATES
  ∧ (idmThrottledUpdate 0 (.ok (JValue.obj [])) .transportErr ⟨none, none⟩).2.2 = 1
  ∧ (idmThrottledUpdate 100 .transportErr .transportErr
      (idmThrottledUpdate 0 (.ok (JValue.obj [])) .transportErr ⟨none, none⟩).1).2.2 = 1 :=
  ⟨by decide, rfl, rfl⟩

/-- Claim C3 (amended): when the first of the two refresh calls performs its
network exchange and returns without an uncaught exception (success and the
caught transport failure both record the throttle timestamp), any second
refresh call less than the throttle window later performs no network call at
all and returns with the client state — snapshot included — unchanged. -/
theorem c3_second_call_within_window_is_noop :
    ∀ (t1 t2 : ℤ) (l1 v1 l2 v2 : NetResult) (cs : ClientState),
      0 < (idmThrottledUpdate t1 l1 v1 cs).2.2 →
      (∀ e, (idmThrottledUpdate t1 l1 v1 cs).2.1 ≠ .exn e) →
      t2 - t1 < MIN_TIME_BETWEEN_UPDATES →
      idmThrottledUpdate t2 l2 v2 (idmThrottledUpdate t1 l1 v1 cs).1 =
        ((idmThrottledUpdate t1 l1 v1 cs).1, .retNone, 0) := by
  intro t1 t2 l1 v1 l2 v2 cs hn hr hlt
  unfold idmThrottledUpdate at hn hr ⊢
  have hlast := throttledUpdate_ran_lastCall hn hr
  exact throttledUpdate_within_window hlast (le_of_lt hlt)

/-- Witness for C3: a fresh client refreshes at time 0 (one POST, transport
failure, caught), and a second call at time 100 is a no-op. -/
theorem c3_second_call_within_window_is_noop_witness :
    idmThrottledUpdate 100 .transportErr .transportErr
        (idmThrottledUpdate 0 .transportErr .transportErr ⟨none, none⟩).1 =
      ((idmThrottledUpdate 0 .transportErr .transportErr ⟨none, none⟩).1,
       .retNone, 0) :=
  c3_second_call_within_window_is_noop 0 100 .transportErr .transportErr
    .transportErr .transportErr ⟨none, none⟩ (by decide)
    (fun e => by cases e <;> decide) (by decide)

/-- Claim C2 evaluated on the code (code bug): with the client snapshot absent
after a failed refresh (`data = None`, throttle timestamp recorded at 0) and
the throttle window not yet elapsed at time 10, a call to the sensor's update
for `outside_temp` does not resolve the value to absent-and-return: the
subscript `None["temp_outside"]` raises a `TypeError`, which the
`except ValueError` handler does not catch, so the exception escapes the
update call (contradicting the claim's "without raising any exception"). -/
theorem c2_code_bug_absent_snapshot_raises_typeerror :
    sensorUpdate 10 .transportErr .transportErr ⟨none, some 0⟩
        ⟨"outside_temp".toList, none⟩ =
      (⟨none, some 0⟩, ⟨"outside_temp".toList, none⟩, some .typeError, 0) :=
  rfl

/-- Counterexample for C6: a login response that is well-formed JSON but has
no `token` field (here the empty object) is not handled like a transport
error: the refresh raises an uncaught `KeyError` and leaves the snapshot
unchanged (still present), where the claim demands an absent snapshot and no
escaping exception. -/
theorem c6_counterexample_missing_token_field :
    clientBodyUpdate (.ok (JValue.obj [])) .transportErr
        (some (JValue.obj [("mode".toList, JValue.str ("icon_auto".toList))])) =
      (some (JValue.obj [("mode".toList, JValue.str ("icon_auto".toList))]),
       .exn .keyError, 1)
  ∧ (some (JValue.obj [("mode".toList, JValue.str ("icon_auto".toList))]) :
      Option JValue) ≠ none :=
  ⟨rfl, fun h => Option.noConfusion h⟩

/-- Claim C6 (amended): a login-step network/transport error or an
undecodable login response body is caught — snapshot set absent, `False`
returned, no exception escapes; but when the decoded login response fails
field extraction, the extraction's exception escapes the refresh uncaught and
the snapshot is left unchanged, not absent: whatever exception `loginFields`
raises in general, and concretely a `KeyError` when the `token` key, the
`installations` key, or the first installation's `id` key is missing, and an
`IndexError` when the installations list is empty. -/
theorem c6_amended_login_failure_handling :
    (∀ (values : NetResult) (d : Option JValue),
      clientBodyUpdate .transportErr values d = (none, .retFalse, 1))
  ∧ (∀ (values : NetResult) (d : Option JValue),
      clientBodyUpdate .badJson values d = (none, .retFalse, 1))
  ∧ (∀ (j : JValue) (e : PyExc) (values : NetResult) (d : Option JValue),
      loginFields j = .error e →
      clientBodyUpdate (.ok j) values d = (d, .exn e, 1))
  ∧ (∀ (fs : List (List Char × JValue)) (values : NetResult) (d : Option JValue),
      lookupPairs fs ("token".toList) = none →
      clientBodyUpdate (.ok (.obj fs)) values d = (d, .exn .keyError, 1))
  ∧ (∀ (fs : List (List Char × JValue)) (tv : JValue) (values : NetResult)
      (d : Option JValue),
      lookupPairs fs ("token".toList) = some tv →
      lookupPairs fs ("installations".toList) = none →
      clientBodyUpdate (.ok (.obj fs)) values d = (d, .exn .keyError, 1))
  ∧ (∀ (fs : List (List Char × JValue)) (tv : JValue) (values : NetResult)
      (d : Option JValue),
      lookupPairs fs ("token".toList) = some tv →
      lookupPairs fs ("installations".toList) = some (.arr []) →
      clientBodyUpdate (.ok (.obj fs)) values d = (d, .exn .indexError, 1))
  ∧ (∀ (fs fs0 : List (List Char × JValue)) (tv : JValue) (rest : List JValue)
      (values : NetResult) (d : Option JValue),
      lookupPairs fs ("token".toList) = some tv →
      lookupPairs fs ("installations".toList) = some (.arr (JValue.obj fs0 :: rest)) →
      lookupPairs fs0 ("id".toList) = none →
      clientBodyUpdate (.ok (.obj fs)) values d = (d, .exn .keyError, 1)) := by
  refine ⟨fun _ _ => rfl, fun _ _ => rfl, ?_, ?_, ?_, ?_, ?_⟩
  · intro j e values d hlf
    simp only [clientBodyUpdate, hlf]
  · intro fs values d h1
    have hlf : loginFields (.obj fs) = .error .keyError := by
      simp only [loginFields, getItemS, h1]
    simp only [clientBodyUpdate, hlf]
  · intro fs tv values d h1 h2
    have hlf : loginFields (.obj fs) = .error .keyError := by
      simp only [loginFields, getItemS, h1, h2]
    simp only [clientBodyUpdate, hlf]
  · intro fs tv values d h1 h2
    have hgi : getItemI (JValue.arr []) 0 = .error .indexError := rfl
    have hlf : loginFields (.obj fs) = .error .indexError := by
      simp only [loginFields, getItemS, h1, h2, hgi]
    simp only [clientBodyUpdate, hlf]
  · intro fs fs0 tv rest values d h1 h2 h3
    have hgi : getItemI (JValue.arr (JValue.obj fs0 :: rest)) 0 =
        .ok (JValue.obj fs0) := rfl
    have hlf : loginFields (.obj fs) = .error .keyError := by
      simp only [loginFields, getItemS, h1, h2, hgi, h3]
    simp only [clientBodyUpdate, hlf]

/-- Witness for the amended C6 at the four malformed login bodies: empty
object, token only, token with empty installations list, and token with a
first installation missing its id. -/
theorem c6_amended_login_failure_handling_witness :
    clientBodyUpdate (.ok (JValue.obj [])) .transportErr none =
      (none, .exn .keyError, 1)
  ∧ clientBodyUpdate (.ok (JValue.obj [("token".toList, JValue.str ("t".toList))]))
      .transportErr none = (none, .exn .keyError, 1)
  ∧ clientBodyUpdate (.ok (JValue.obj [("token".toList, JValue.str ("t".toList)),
      ("installations".toList, JValue.arr [])])) .transportErr none =
      (none, .exn .indexError, 1)
  ∧ clientBodyUpdate (.ok (JValue.obj [("token".toList, JValue.str ("t".toList)),
      ("installations".toList, JValue.arr [JValue.obj []])])) .transportErr none =
      (none, .exn .keyError, 1) :=
  ⟨c6_amended_login_failure_handling.2.2.2.1 [] .transportErr none rfl,
   c6_amended_login_failure_handling.2.2.2.2.1
     [("token".toList, JValue.str ("t".toList))] (JValue.str ("t".toList))
     .transportErr none rfl rfl,
   c6_amended_login_failure_handling.2.2.2.2.2.1
     [("token".toList, JValue.str ("t".toList)),
      ("installations".toList, JValue.arr [])] (JValue.str ("t".toList))
     .transportErr none rfl rfl,
   c6_amended_login_failure_handling.2.2.2.2.2.2
     [("token".toList, JValue.str ("t".toList)),
      ("installations".toList, JValue.arr [JValue.obj []])] []
     (JValue.str ("t".toList)) [] .transportErr none rfl rfl rfl⟩

/-- Claim C10: for a requested metric key with no defined extraction rule,
the sensor's update still triggers the shared client's refresh (the client
state and network-call count are exactly those of a bare client refresh), but
never assigns the sensor's value, which therefore stays what it was — absent
for the whole process lifetime, since it starts absent. -/
theorem c10_unknown_key_refreshes_but_never_assigns :
    ∀ (t : ℤ) (l v : NetResult) (cs : ClientState) (ty : List Char)
      (prev : Option PyVal), definedKey ty = false →
      sensorUpdate t l v cs ⟨ty, prev⟩ =
        ((idmThrottledUpdate t l v cs).1, ⟨ty, prev⟩,
         excOf (idmThrottledUpdate t l v cs).2.1,
         (idmThrottledUpdate t l v cs).2.2) := by
  intro t l v cs ty prev hdef
  have hmem : ¬ (ty ∈ SENSOR_KEYS) := by simpa [definedKey] using hdef
  simp only [SENSOR_KEYS, List.mem_cons, List.mem_singleton] at hmem
  push_neg at hmem
  obtain ⟨h1, h2, h3, h4, h5, h6, h7, h8, h9, h10, h11, -⟩ := hmem
  have hne : ∀ hd, sensorTryExtract hd ty = .ok (hd, none) := by
    intro hd
    unfold sensorTryExtract
    rw [if_neg h1, if_neg h2, if_neg h3, if_neg h4, if_neg h5, if_neg h6,
      if_neg h7, if_neg h8, if_neg h9, if_neg h10, if_neg h11]
  unfold sensorUpdate
  rcases hrr : (idmThrottledUpdate t l v cs).2.1 with _ | _ | e
  · simp only [hrr]
    unfold sensorExtract
    rw [hne]
    rfl
  · simp only [hrr]
    unfold sensorExtract
    rw [hne]
    rfl
  · simp only [hrr]
    rfl

/-- Witness for C10 at the unknown key `"foo"`, a fresh client, and a
successful exchange at time 0. -/
theorem c10_unknown_key_refreshes_but_never_assigns_witness :
    sensorUpdate 0 (.ok (JValue.obj [("token".toList, JValue.str ("t".toList)),
        ("installations".toList,
          JValue.arr [JValue.obj [("id".toList, JValue.str ("1".toList))]])]))
      (.ok (JValue.obj [("mode".toList, JValue.str ("icon_auto".toList))]))
      ⟨none, none⟩ ⟨"foo".toList, none⟩ =
      ((idmThrottledUpdate 0 (.ok (JValue.obj [("token".toList, JValue.str ("t".toList)),
          ("installations".toList,
            JValue.arr [JValue.obj [("id".toList, JValue.str ("1".toList))]])]))
        (.ok (JValue.obj [("mode".toList, JValue.str ("icon_auto".toList))]))
        ⟨none, none⟩).1, ⟨"foo".toList, none⟩,
       excOf (idmThrottledUpdate 0 (.ok (JValue.obj [("token".toList, JValue.str ("t".toList)),
          ("installations".toList,
            JValue.arr [JValue.obj [("id".toList, JValue.str ("1".toList))]])]))
        (.ok (JValue.obj [("mode".toList, JValue.str ("icon_auto".toList))]))
        ⟨none, none⟩).2.1,
       (idmThrottledUpdate 0 (.ok (JValue.obj [("token".toList, JValue.str ("t".toList)),
          ("installations".toList,
            JValue.arr [JValue.obj [("id".toList, JValue.str ("1".toList))]])]))
        (.ok (JValue.obj [("mode".toList, JValue.str ("icon_auto".toList))]))
        ⟨none, none⟩).2.2) :=
  c10_unknown_key_refreshes_but_never_assigns 0
    (.ok (JValue.obj [("token".toList, JValue.str ("t".toList)),
      ("installations".toList,
        JValue.arr [JValue.obj [("id".toList, JValue.str ("1".toList))]])]))
    (.ok (JValue.obj [("mode".toList, JValue.str ("icon_auto".toList))]))
    ⟨none, none⟩ ("foo".toList) none (by decide)
